import Mathlib

/-!
# Verification of the 5118 SEO-tools plugin

A shallow embedding of the repository `seo-tools-plugin`:

* `validate_parameters` embeds `SeoToolsTool._validate_parameters`
  (src/seo-tools/tools/seo-tools.py, lines 73-87).
* `call_5118_api` (together with `buildRequest` and `classify200`) embeds
  the response-handling of `SeoToolsTool._call_5118_api` (lines 89-177);
  the transport call itself is an oracle of type `NetOutcome` (the HTTP
  status/body/parse result, or a `requests` exception).
* `format_seo_result` embeds `format_seo_result` of
  src/seo-tools/test_local.py (lines 136-184).  The copy
  `SeoToolsTool._format_seo_result` in tools/seo-tools.py (lines 179-227)
  is the same function line for line, but its indentation is corrupted
  there (the file does not parse as Python); the test_local.py copy is the
  syntactically valid statement of the same logic.
* `invokeTool` embeds the generator `SeoToolsTool._invoke` (lines 20-71):
  the yielded messages become an explicit list, and the outbound request,
  when one is issued, is recorded as an `ApiRequest`.

Python values parsed from JSON are embedded as the inductive `Json`
(numbers as `Int`: the claims never touch fractional numbers).  Python
behaviours needed by the code are embedded explicitly: truthiness
(`jsonTruthy`), `str.strip` (`pyStrip`, over the ASCII whitespace class;
exotic Unicode whitespace is not modelled), `str.join` (`pyJoin`),
substring membership (`strContainsB`), f-string interpolation / `str()`
(`pyFstr`, with `repr` of nested values approximated without
quote-escaping), and the `TypeError`s that `x in v` / `v['k']` raise on
non-dict values (embedded as `Except String`).
-/

/-- A JSON value as Python's `json` module produces it (numbers restricted
to integers; no claim involves fractional numbers). -/
inductive Json where
  | null : Json
  | bool : Bool → Json
  | num : Int → Json
  | str : String → Json
  | arr : List Json → Json
  | obj : List (String × Json) → Json

/-- Python `v == "0"`-style comparison of a parsed-JSON value with a
string literal: true exactly when `v` is that string (a number, list,
dict, boolean or `None` never equals a `str` in Python). -/
def jsonEqStr : Json → String → Bool
  | Json.str s, t => s == t
  | _, _ => false

/-- Python `'k' in xs` for a parsed-JSON list `xs`: membership by `==`,
which for the string `'k'` holds exactly at equal-string elements. -/
def jsonListHasStr (xs : List Json) (key : String) : Bool :=
  xs.any (fun x => jsonEqStr x key)

/-- Lookup in a Python dict represented as an association list
(`d['k']` / `'k' in d` / `d.get('k', default)`). -/
def dictGet : List (String × Json) → String → Option Json
  | [], _ => none
  | (k, v) :: t, key => if k = key then some v else dictGet t key

/-- Python truthiness of a parsed-JSON value (`if not result_data`,
`if value:`). -/
def jsonTruthy : Json → Bool
  | Json.null => false
  | Json.bool b => b
  | Json.num n => n != 0
  | Json.str s => s != ""
  | Json.arr xs => !xs.isEmpty
  | Json.obj kvs => !kvs.isEmpty

/-- Substring search on character lists, the semantics of Python's
`pat in s` for strings. -/
def charListContains : List Char → List Char → Bool
  | [], pat => pat.isEmpty
  | l@(_ :: t), pat => pat.isPrefixOf l || charListContains t pat

/-- `pat` occurs as a contiguous substring of `s` (Python `pat in s`). -/
def strContainsB (s pat : String) : Bool :=
  charListContains s.data pat.data

mutual
/-- Python `repr()` of a parsed-JSON value (quote-escaping inside nested
strings is not modelled: the claims only interpolate escape-free text). -/
def pyRepr : Json → String
  | Json.null => "None"
  | Json.bool b => if b then "True" else "False"
  | Json.num n => toString n
  | Json.str s => "'" ++ s ++ "'"
  | Json.arr xs => "[" ++ String.intercalate ", " (pyReprList xs) ++ "]"
  | Json.obj kvs => "\x7b" ++ String.intercalate ", " (pyReprPairs kvs) ++ "\x7d"

/-- `repr` of the elements of a list value. -/
def pyReprList : List Json → List String
  | [] => []
  | x :: xs => pyRepr x :: pyReprList xs

/-- `repr` of the entries of a dict value. -/
def pyReprPairs : List (String × Json) → List String
  | [] => []
  | (k, v) :: xs => ("'" ++ k ++ "': " ++ pyRepr v) :: pyReprPairs xs
end

/-- Python `str()` of a parsed-JSON value, as f-string interpolation
performs it: a string interpolates as itself, anything else as its
`repr`. -/
def pyFstr : Json → String
  | Json.str s => s
  | j => pyRepr j

/-- The ASCII whitespace characters `str.strip()` removes. -/
def isPySpace (c : Char) : Bool :=
  c = ' ' || c = '\t' || c = '\n' || c = '\r' || c = '\x0b' || c = '\x0c'

/-- Python `s.strip()`: drop leading and trailing whitespace. -/
def pyStrip (s : String) : String :=
  String.mk (((s.data.dropWhile isPySpace).reverse.dropWhile isPySpace).reverse)

/-- Python `sep.join(xs)`. -/
def pyJoin (sep : String) : List String → String
  | [] => ""
  | [x] => x
  | x :: y :: t => x ++ sep ++ pyJoin sep (y :: t)

/-- The outbound HTTP POST assembled by `_call_5118_api` (lines 92-106):
fixed URL, the API key sent verbatim in `Authorization`, the form fields
`keywords` and (only when non-empty) `adverb`.  The percent-encoding
`urllib.parse.urlencode` applies to the body, the 30-second timeout and
TLS verification flag are transport details not modelled further. -/
structure ApiRequest where
  url : String
  authorization : String
  contentType : String
  dataParams : List (String × String)

/-- Request construction of `_call_5118_api` (lines 92-106). -/
def buildRequest (keywords adverb apikey : String) : ApiRequest :=
  { url := "http://apis.5118.com/ai/seometa"
    authorization := apikey
    contentType := "application/x-www-form-urlencoded; charset=UTF-8"
    dataParams :=
      [("keywords", keywords)] ++ (if adverb ≠ "" then [("adverb", adverb)] else []) }

/-- What the transport layer hands back: an HTTP response (status, text,
and the result of `response.json()` — `none` models `JSONDecodeError`),
or one of the `requests` exceptions caught at lines 172-177. -/
inductive NetOutcome where
  | resp (status : Nat) (text : String) (parsed : Option Json)
  | timeout
  | connError
  | reqException (msg : String)

/-- The tagged outcome dict `_call_5118_api` returns:
`{"success": True, "data": …}` or `{"success": False, "error": …}`. -/
inductive ApiResult where
  | success (data : Json) : ApiResult
  | failure (error : String) : ApiResult

/-- The `errcode` inspection of a parsed 200 body (lines 122-142).
`result_data` need not be a dict: `'errcode' in result_data` is list
membership for a list, substring search for a string, and a `TypeError`
for a number/boolean/`None`; indexing a non-dict with `'errcode'` is a
`TypeError` as well.  A raised `TypeError` is the `Except.error` case
(it escapes `_call_5118_api`, whose handlers only catch `requests`
exceptions). -/
def classify200 : Json → Except String ApiResult
  | Json.obj kvs =>
      match dictGet kvs "errcode" with
      | some v =>
          if jsonEqStr v "0" then
            Except.ok (ApiResult.success (Json.obj kvs))
          else
            Except.ok (ApiResult.failure
              ("❌ API错误: " ++ pyFstr ((dictGet kvs "errmsg").getD (Json.str "未知错误"))))
      | none => Except.ok (ApiResult.success (Json.obj kvs))
  | Json.arr xs =>
      if jsonListHasStr xs "errcode" then
        Except.error "TypeError: list indices must be integers or slices, not str"
      else Except.ok (ApiResult.success (Json.arr xs))
  | Json.str s =>
      if strContainsB s "errcode" then
        Except.error "TypeError: string indices must be integers"
      else Except.ok (ApiResult.success (Json.str s))
  | j => Except.error ("TypeError: argument of type " ++ pyFstr j ++ " is not iterable")

/-- Response handling of `_call_5118_api` (lines 117-177): status-code
branching, the `errcode` envelope check on a parsed 200 body, the
raw-text fallback for an unparseable 200 body, and the conversion of the
three `requests` exception classes into failure outcomes. -/
def call_5118_api (net : NetOutcome) : Except String ApiResult :=
  match net with
  | NetOutcome.resp status text parsed =>
      if status = 200 then
        match parsed with
        | some j => classify200 j
        | none =>
            Except.ok (ApiResult.success (Json.obj [("raw_response", Json.str text)]))
      else if status = 401 then
        Except.ok (ApiResult.failure "❌ API密钥无效或已过期，请检查密钥是否正确")
      else if status = 403 then
        Except.ok (ApiResult.failure "❌ API密钥权限不足，请检查账户余额或权限设置")
      else if status = 429 then
        Except.ok (ApiResult.failure "❌ API调用频率超限，请稍后再试")
      else
        Except.ok (ApiResult.failure
          ("❌ API调用失败，状态码: " ++ toString status ++ "\n响应: " ++ text.take 200))
  | NetOutcome.timeout =>
      Except.ok (ApiResult.failure "❌ API请求超时，请检查网络连接或稍后重试")
  | NetOutcome.connError =>
      Except.ok (ApiResult.failure "❌ 网络连接错误，请检查网络设置")
  | NetOutcome.reqException m =>
      Except.ok (ApiResult.failure ("❌ 网络请求错误: " ++ m))

/-- `_validate_parameters` (lines 73-87): `some message` models returning
an error string, `none` models returning `None`.  (This function is
defined in the source but never called by `_invoke`.) -/
def validate_parameters (keywords apikey : String) : Option String :=
  if keywords = "" then some "❌ 错误：主关键词不能为空，请输入要优化的关键词"
  else if 100 < keywords.length then some "❌ 错误：主关键词长度不能超过100个字符"
  else if apikey = "" then some "❌ 错误：API密钥不能为空，请在5118.com获取API密钥"
  else if apikey.length < 10 then some "❌ 错误：API密钥格式不正确，请检查密钥是否完整"
  else none

/-- The `'raw_response' in result_data` test of the formatter (line 142 of
test_local.py): for a dict, the looked-up value when the key is present;
for a list or string, Python `in` (membership / substring), where a hit
would make the subsequent `result_data['raw_response']` raise `TypeError`;
for any other value, `in` itself raises `TypeError`. -/
def rawResponseLookup : Json → Except String (Option Json)
  | Json.obj kvs => Except.ok (dictGet kvs "raw_response")
  | Json.arr xs =>
      if jsonListHasStr xs "raw_response" then
        Except.error "TypeError: list indices must be integers or slices, not str"
      else Except.ok none
  | Json.str s =>
      if strContainsB s "raw_response" then
        Except.error "TypeError: string indices must be integers"
      else Except.ok none
  | j => Except.error ("TypeError: argument of type " ++ pyFstr j ++ " is not iterable")

/-- The middle section the formatter appends to `formatted_output`
(test_local.py lines 149-180): the `errcode`/`data` standard shape, the
error shape, the generic key/value dump, or `str()` of a non-dict. -/
def formatBody : Json → List String
  | Json.obj kvs =>
      if (dictGet kvs "errcode").isSome && (dictGet kvs "data").isSome then
        if jsonEqStr ((dictGet kvs "errcode").getD Json.null) "0" then
          ["📝 SEO元数据:",
           "   " ++ pyFstr ((dictGet kvs "data").getD Json.null),
           ""]
        else
          ["❌ API错误:",
           "   错误代码: " ++ pyFstr ((dictGet kvs "errcode").getD Json.null),
           "   错误信息: " ++ pyFstr ((dictGet kvs "errmsg").getD (Json.str "未知错误")),
           ""]
      else
        kvs.flatMap (fun p =>
          if jsonTruthy p.2 then ["📌 " ++ p.1 ++ ":", "   " ++ pyFstr p.2, ""] else [])
  | j => [pyFstr j]

/-- `formatBody` with the `errcode ≠ "0"` error branch replaced by junk:
used to state that this branch is dead on classifier-produced payloads. -/
def formatBodyNoErr : Json → List String
  | Json.obj kvs =>
      if (dictGet kvs "errcode").isSome && (dictGet kvs "data").isSome then
        if jsonEqStr ((dictGet kvs "errcode").getD Json.null) "0" then
          ["📝 SEO元数据:",
           "   " ++ pyFstr ((dictGet kvs "data").getD Json.null),
           ""]
        else []
      else
        kvs.flatMap (fun p =>
          if jsonTruthy p.2 then ["📌 " ++ p.1 ++ ":", "   " ++ pyFstr p.2, ""] else [])
  | j => [pyFstr j]

/-- `format_seo_result` (test_local.py lines 136-184; identical to the
indentation-corrupted `_format_seo_result` of tools/seo-tools.py lines
179-227): early return on a falsy payload, early return for the
`raw_response` shape, otherwise header + body + footer joined by
newlines.  `Except.error` models a `TypeError` escaping the formatter. -/
def format_seo_result (result_data : Json) : Except String String :=
  if jsonTruthy result_data = false then
    Except.ok "❌ API返回数据为空"
  else
    match rawResponseLookup result_data with
    | Except.error e => Except.error e
    | Except.ok (some rawv) =>
        Except.ok ("📊 5118 SEO元数据生成结果：\n\n" ++ pyFstr rawv)
    | Except.ok none =>
        Except.ok (pyJoin "\n"
          (["🎯 5118 SEO元数据生成结果", String.mk (List.replicate 40 '='), ""]
            ++ formatBody result_data
            ++ ["", "✅ SEO元数据生成完成！"]))

/-- The parameter map the host runtime hands to `_invoke`
(`tool_parameters`): the three recognised keys, each possibly absent
(`tool_parameters.get(k, '')`).  Values are assumed to be strings. -/
structure ToolParams where
  keywords : Option String
  adverb : Option String
  apikey : Option String

/-- `repr` of the `tool_parameters` dict as interpolated into the very
first progress message (modelling assumption: the host supplies the keys
in the order keywords, adverb, apikey; absent keys are absent from the
dict; string quote-escaping is not modelled). -/
def optEntry (name : String) : Option String → List String
  | none => []
  | some v => ["'" ++ name ++ "': '" ++ v ++ "'"]

/-- `str(tool_parameters)` for the f-string at line 34 of
tools/seo-tools.py. -/
def paramsRepr (p : ToolParams) : String :=
  "\x7b"
    ++ String.intercalate ", "
        (optEntry "keywords" p.keywords ++ optEntry "adverb" p.adverb
          ++ optEntry "apikey" p.apikey)
    ++ "\x7d"

/-- The second progress message (line 34): parameter dump. -/
def paramInfoMsg (p : ToolParams) : String :=
  "📋 参数信息：\n" ++ paramsRepr p ++ "\n"

/-- The third progress message (line 48): stripped parameter status. -/
def paramStatusMsg (p : ToolParams) : String :=
  "📋 参数状态：\n- keywords: " ++ pyStrip (p.keywords.getD "")
    ++ "\n- adverb: " ++ pyStrip (p.adverb.getD "")
    ++ "\n- apikey: "
    ++ (if pyStrip (p.apikey.getD "") ≠ "" then "已设置" else "未设置")
    ++ "\n"

/-- The four fixed progress/status messages `_invoke` can yield before its
terminal message, in yield order (lines 31, 35, 49, 57). -/
def statusMsgs (p : ToolParams) : List String :=
  ["🚀 插件开始执行...", paramInfoMsg p, paramStatusMsg p, "📡 开始调用5118 API..."]

/-- What one `_invoke` run produces: the ordered list of yielded text
messages, and the outbound request when one was issued (`none` = the
invocation returned before any network call). -/
structure InvokeResult where
  messages : List String
  networkCall : Option ApiRequest

/-- `_invoke` (tools/seo-tools.py lines 20-71): two unconditional yields,
parameter stripping, the missing-parameter early return (note: length
validation is absent — `_validate_parameters` is never called), the
progress yield, the API call, and the terminal yield; any exception
escaping the call or the formatter is caught by `except Exception` and
yielded as the `🚨` message. -/
def invokeTool (p : ToolParams) (net : NetOutcome) : InvokeResult :=
  let keywords := pyStrip (p.keywords.getD "")
  let adverb := pyStrip (p.adverb.getD "")
  let apikey := pyStrip (p.apikey.getD "")
  let pre := ["🚀 插件开始执行...", paramInfoMsg p, paramStatusMsg p]
  if keywords = "" || apikey = "" then
    { messages := pre ++ ["❌ 错误：缺少必要参数（关键词或API密钥）"]
      networkCall := none }
  else
    let pre2 := pre ++ ["📡 开始调用5118 API..."]
    let req := buildRequest keywords adverb apikey
    match call_5118_api net with
    | Except.error e =>
        { messages := pre2 ++ ["🚨 插件执行错误: " ++ e], networkCall := some req }
    | Except.ok (ApiResult.success d) =>
        match format_seo_result d with
        | Except.ok s => { messages := pre2 ++ [s], networkCall := some req }
        | Except.error e =>
            { messages := pre2 ++ ["🚨 插件执行错误: " ++ e], networkCall := some req }
    | Except.ok (ApiResult.failure err) =>
        { messages := pre2 ++ [err], networkCall := some req }

/-! ## Helper lemmas -/

/-- `jsonEqStr` decides equality with a string value, as Python `==` does. -/
lemma jsonEqStr_true_iff (v : Json) (t : String) :
    jsonEqStr v t = true ↔ v = Json.str t := by
  cases v <;> simp [jsonEqStr]

/-- Appending one more element to a nonempty join adds one more separator. -/
lemma pyJoin_append_singleton (sep y : String) :
    ∀ xs : List String, xs ≠ [] →
      pyJoin sep (xs ++ [y]) = pyJoin sep xs ++ sep ++ y := by
  intro xs
  induction xs with
  | nil => intro h; exact absurd rfl h
  | cons x t ih =>
    intro _
    cases t with
    | nil => rfl
    | cons x2 t2 =>
      have h2 := ih (by simp)
      show x ++ sep ++ pyJoin sep ((x2 :: t2) ++ [y])
          = x ++ sep ++ pyJoin sep (x2 :: t2) ++ sep ++ y
      rw [h2]
      simp [String.append_assoc]

/-- Two strings differ when they already differ within the first `n`
characters of a left factor. -/
lemma append_ne_of_take_ne (n : Nat) (a m b : String)
    (hlen : n ≤ a.data.length) (h : a.data.take n ≠ b.data.take n) :
    a ++ m ≠ b := by
  intro he
  apply h
  have hd : a.data ++ m.data = b.data := congrArg String.data he
  rw [← hd, List.take_append_of_le_length hlen]

/-! ## Claims -/

/-- **C1.** The spec requires a `primaryKeyword` longer than 100
characters to be rejected with the "keyword too long" error before any
network call.  `_validate_parameters` implements exactly that check and
message, but `_invoke` never calls it: on a 101-character keyword (with a
well-formed API key) the invocation issues the HTTP request and never
emits the too-long error.  The code contradicts the validator it defines:
a code bug, exhibited at this concrete input. -/
theorem keywordTooLong_reaches_network :
    validate_parameters (String.mk (List.replicate 101 'k')) "abcdefghij"
        = some "❌ 错误：主关键词长度不能超过100个字符"
      ∧ (invokeTool ⟨some (String.mk (List.replicate 101 'k')), none, some "abcdefghij"⟩
            NetOutcome.timeout).networkCall
          = some (buildRequest (String.mk (List.replicate 101 'k')) "" "abcdefghij")
      ∧ ((invokeTool ⟨some (String.mk (List.replicate 101 'k')), none, some "abcdefghij"⟩
            NetOutcome.timeout).messages.all
              (fun m => m != "❌ 错误：主关键词长度不能超过100个字符")) = true :=
  ⟨rfl, rfl, rfl⟩

/-- **C2.** Likewise for the API key: the spec requires a non-empty
`apiKey` shorter than 10 characters to be rejected with the "malformed
API key" error before any network call.  `_validate_parameters`
implements the check, `_invoke` never calls it: with a 5-character key
the request is issued and the malformed-key error never appears. -/
theorem shortApikey_reaches_network :
    validate_parameters "seo" "short"
        = some "❌ 错误：API密钥格式不正确，请检查密钥是否完整"
      ∧ (invokeTool ⟨some "seo", none, some "short"⟩ NetOutcome.timeout).networkCall
          = some (buildRequest "seo" "" "short")
      ∧ ((invokeTool ⟨some "seo", none, some "short"⟩ NetOutcome.timeout).messages.all
            (fun m => m != "❌ 错误：API密钥格式不正确，请检查密钥是否完整")) = true :=
  ⟨rfl, rfl, rfl⟩

/-- **C3.** An HTTP 200 body that parses to an object with an `errcode`
field different from the string `"0"` is classified as a Failure whose
message is the fixed `API错误` prefix followed by the envelope's `errmsg`
(the `未知错误` placeholder when absent); at the body
`{"errcode":"1001","errmsg":"insufficient balance"}` the message contains
`insufficient balance`. -/
theorem errcode_nonzero_yields_api_error
    (kvs : List (String × Json)) (v : Json) (text : String)
    (h1 : dictGet kvs "errcode" = some v) (h2 : v ≠ Json.str "0") :
    call_5118_api (NetOutcome.resp 200 text (some (Json.obj kvs)))
        = Except.ok (ApiResult.failure
            ("❌ API错误: " ++ pyFstr ((dictGet kvs "errmsg").getD (Json.str "未知错误"))))
      ∧ ∃ msg,
          call_5118_api (NetOutcome.resp 200 "" (some (Json.obj
              [("errcode", Json.str "1001"), ("errmsg", Json.str "insufficient balance")])))
            = Except.ok (ApiResult.failure msg)
          ∧ strContainsB msg "insufficient balance" = true := by
  constructor
  · show classify200 (Json.obj kvs) = _
    have hv : jsonEqStr v "0" = false := by
      cases hb : jsonEqStr v "0"
      · rfl
      · exact absurd ((jsonEqStr_true_iff v "0").mp hb) h2
    simp [classify200, h1, hv]
  · exact ⟨"❌ API错误: insufficient balance", rfl, rfl⟩

/-- Witness for C3 at the body
`{"errcode":"1001","errmsg":"insufficient balance"}`. -/
theorem errcode_nonzero_yields_api_error_witness :
    ∃ msg,
      call_5118_api (NetOutcome.resp 200 "" (some (Json.obj
          [("errcode", Json.str "1001"), ("errmsg", Json.str "insufficient balance")])))
        = Except.ok (ApiResult.failure msg)
      ∧ strContainsB msg "insufficient balance" = true :=
  (errcode_nonzero_yields_api_error
      [("errcode", Json.str "1001"), ("errmsg", Json.str "insufficient balance")]
      (Json.str "1001") ""
      rfl
      (by intro h; injection h with h'; exact absurd h' (by decide))).2

/-- **C5.** An HTTP 200 response whose body does not parse as JSON is
classified as a Success wrapping `{raw_response: <original text>}`, and
the formatter's output for that payload contains the original body text
verbatim (here: as a suffix after the fixed header). -/
theorem nonjson_200_raw_roundtrip (text : String) :
    call_5118_api (NetOutcome.resp 200 text none)
        = Except.ok (ApiResult.success (Json.obj [("raw_response", Json.str text)]))
      ∧ ∃ pre suf,
          format_seo_result (Json.obj [("raw_response", Json.str text)])
            = Except.ok (pre ++ text ++ suf) := by
  refine ⟨rfl, "📊 5118 SEO元数据生成结果：\n\n", "", ?_⟩
  simp [format_seo_result, rawResponseLookup, dictGet, jsonTruthy, pyFstr]

/-- **C7.** Every HTTP 401 response is classified as a Failure with the
fixed invalid-or-expired-key message, whatever the body or its parse
result; the message mentions the invalid/expired key
(`API密钥无效或已过期`). -/
theorem status_401_invalid_key (text : String) (parsed : Option Json) :
    call_5118_api (NetOutcome.resp 401 text parsed)
        = Except.ok (ApiResult.failure "❌ API密钥无效或已过期，请检查密钥是否正确")
      ∧ strContainsB "❌ API密钥无效或已过期，请检查密钥是否正确" "API密钥无效或已过期"
          = true :=
  ⟨rfl, rfl⟩

/-- **C10.** `_invoke` strips the parameters before any check, so an
input whose `keywords` or `apikey` is whitespace-only is rejected with
the missing-required-parameter message as the terminal message, and no
network call is issued. -/
theorem whitespace_only_params_rejected (p : ToolParams) (net : NetOutcome)
    (h : pyStrip (p.keywords.getD "") = "" ∨ pyStrip (p.apikey.getD "") = "") :
    (invokeTool p net).networkCall = none
      ∧ (invokeTool p net).messages.getLast?
          = some "❌ 错误：缺少必要参数（关键词或API密钥）" := by
  rcases h with h | h <;>
    simp [invokeTool, h, List.getLast?_concat]

/-- Witness for C10: whitespace-only keywords with a well-formed key. -/
theorem whitespace_only_params_rejected_witness :
    (invokeTool ⟨some "   ", some "", some "abcdefghij"⟩ NetOutcome.timeout).networkCall
        = none
      ∧ (invokeTool ⟨some "   ", some "", some "abcdefghij"⟩
            NetOutcome.timeout).messages.getLast?
          = some "❌ 错误：缺少必要参数（关键词或API密钥）" :=
  whitespace_only_params_rejected ⟨some "   ", some "", some "abcdefghij"⟩
    NetOutcome.timeout (Or.inl rfl)

/-- **C6.** Each of the three `requests` exception classes is converted
at the call layer into a Failure with its own message category — the
timeout, connection-error and generic network-error messages are pairwise
distinct — and, the parameters being present, the invocation yields that
failure message as its terminal message rather than letting any exception
propagate (the call layer returns `Except.ok`, i.e. nothing is raised
past it). -/
theorem transport_exceptions_to_failure (m : String) (p : ToolParams)
    (hk : pyStrip (p.keywords.getD "") ≠ "") (ha : pyStrip (p.apikey.getD "") ≠ "") :
    call_5118_api NetOutcome.timeout
        = Except.ok (ApiResult.failure "❌ API请求超时，请检查网络连接或稍后重试")
      ∧ call_5118_api NetOutcome.connError
          = Except.ok (ApiResult.failure "❌ 网络连接错误，请检查网络设置")
      ∧ call_5118_api (NetOutcome.reqException m)
          = Except.ok (ApiResult.failure ("❌ 网络请求错误: " ++ m))
      ∧ ("❌ API请求超时，请检查网络连接或稍后重试" : String)
          ≠ "❌ 网络连接错误，请检查网络设置"
      ∧ ("❌ 网络请求错误: " ++ m) ≠ "❌ API请求超时，请检查网络连接或稍后重试"
      ∧ ("❌ 网络请求错误: " ++ m) ≠ "❌ 网络连接错误，请检查网络设置"
      ∧ (invokeTool p NetOutcome.timeout).messages.getLast?
          = some "❌ API请求超时，请检查网络连接或稍后重试" := by
  refine ⟨rfl, rfl, rfl, by decide, ?_, ?_, ?_⟩
  · exact append_ne_of_take_ne 8 _ m _ (by decide) (by decide)
  · exact append_ne_of_take_ne 8 _ m _ (by decide) (by decide)
  · simp [invokeTool, hk, ha, call_5118_api, List.getLast?_concat]

/-- Witness for C6: a concrete exception text and concrete present
parameters. -/
theorem transport_exceptions_to_failure_witness :
    (invokeTool ⟨some "seo", none, some "abcdefghij"⟩ NetOutcome.timeout).messages.getLast?
      = some "❌ API请求超时，请检查网络连接或稍后重试" :=
  (transport_exceptions_to_failure "boom" ⟨some "seo", none, some "abcdefghij"⟩
      (by decide) (by decide)).2.2.2.2.2.2

/-- **C9.** Every invocation emits a finite ordered sequence of messages
of the shape `progress messages ++ [terminal message]`: the progress
messages are an initial segment of the four fixed status messages (in
their fixed order), and the terminal message — result, failure or error —
is last. -/
theorem progress_precedes_terminal (p : ToolParams) (net : NetOutcome) :
    ∃ ps t qs,
      (invokeTool p net).messages = ps ++ [t] ∧ statusMsgs p = ps ++ qs := by
  by_cases hk : pyStrip (p.keywords.getD "") = ""
  · exact ⟨["🚀 插件开始执行...", paramInfoMsg p, paramStatusMsg p],
      "❌ 错误：缺少必要参数（关键词或API密钥）", ["📡 开始调用5118 API..."],
      by simp [invokeTool, hk], rfl⟩
  · by_cases ha : pyStrip (p.apikey.getD "") = ""
    · exact ⟨["🚀 插件开始执行...", paramInfoMsg p, paramStatusMsg p],
        "❌ 错误：缺少必要参数（关键词或API密钥）", ["📡 开始调用5118 API..."],
        by simp [invokeTool, hk, ha], rfl⟩
    · cases hr : call_5118_api net with
      | error e =>
          exact ⟨statusMsgs p, "🚨 插件执行错误: " ++ e, [],
            by simp [invokeTool, hk, ha, hr, statusMsgs], by simp⟩
      | ok r =>
          cases r with
          | failure err =>
              exact ⟨statusMsgs p, err, [],
                by simp [invokeTool, hk, ha, hr, statusMsgs], by simp⟩
          | success d =>
              cases hf : format_seo_result d with
              | error e =>
                  exact ⟨statusMsgs p, "🚨 插件执行错误: " ++ e, [],
                    by simp [invokeTool, hk, ha, hr, hf, statusMsgs], by simp⟩
              | ok s =>
                  exact ⟨statusMsgs p, s, [],
                    by simp [invokeTool, hk, ha, hr, hf, statusMsgs], by simp⟩

/-- **C4, counterexample.** The claim says every Success outcome renders
with the completion footer, the raw-response shape included; but the
`raw_response` branch of the formatter returns early, so the output for
the non-JSON-200 Success payload is the header plus the raw text with no
footer line at the end. -/
theorem raw_success_lacks_footer :
    call_5118_api (NetOutcome.resp 200 "plain text result" none)
        = Except.ok (ApiResult.success
            (Json.obj [("raw_response", Json.str "plain text result")]))
      ∧ format_seo_result (Json.obj [("raw_response", Json.str "plain text result")])
          = Except.ok "📊 5118 SEO元数据生成结果：\n\nplain text result"
      ∧ ¬ ∃ pre, ("📊 5118 SEO元数据生成结果：\n\nplain text result" : String)
            = pre ++ "\n✅ SEO元数据生成完成！" := by
  refine ⟨rfl, rfl, ?_⟩
  rintro ⟨pre, hp⟩
  have hs : ("\n✅ SEO元数据生成完成！" : String).data
      <:+ ("📊 5118 SEO元数据生成结果：\n\nplain text result" : String).data :=
    ⟨pre.data, (congrArg String.data hp).symm⟩
  exact absurd hs (by decide)

/-- **C4, amended.** For every truthy Success payload that is not the
`raw_response` shape, the formatter's output ends with the fixed
completion footer line; the `raw_response` shape (and a falsy payload)
returns early without the footer. -/
theorem success_footer_amended (d : Json) (r : String)
    (h1 : jsonTruthy d = true) (h2 : rawResponseLookup d = Except.ok none)
    (h3 : format_seo_result d = Except.ok r) :
    ∃ pre, r = pre ++ "\n✅ SEO元数据生成完成！" := by
  rw [format_seo_result, h1, h2] at h3
  simp only [Bool.true_eq_false, if_false, Except.ok.injEq] at h3
  refine ⟨pyJoin "\n" ((["🎯 5118 SEO元数据生成结果",
      String.mk (List.replicate 40 '='), ""] ++ formatBody d) ++ [""]), ?_⟩
  rw [← h3]
  have hsplit :
      (["🎯 5118 SEO元数据生成结果", String.mk (List.replicate 40 '='), ""]
          ++ formatBody d ++ ["", "✅ SEO元数据生成完成！"])
        = ((["🎯 5118 SEO元数据生成结果", String.mk (List.replicate 40 '='), ""]
            ++ formatBody d) ++ [""]) ++ ["✅ SEO元数据生成完成！"] := by
    simp
  rw [hsplit, pyJoin_append_singleton "\n" "✅ SEO元数据生成完成！" _ (by simp),
    String.append_assoc]
  rfl

/-- Witness for the amended C4 at the payload `{"a": "b"}`. -/
theorem success_footer_amended_witness :
    ∃ pre,
      ("🎯 5118 SEO元数据生成结果\n========================================\n\n📌 a:\n   b\n\n\n✅ SEO元数据生成完成！" : String)
        = pre ++ "\n✅ SEO元数据生成完成！" :=
  success_footer_amended (Json.obj [("a", Json.str "b")]) _ rfl rfl rfl

/-- The classifier's contract on Success payloads claimed by the spec:
an object payload either lacks `errcode` or carries `errcode = "0"`
(non-object payloads have no `errcode` field at all). -/
def successInvariant : Json → Prop
  | Json.obj kvs =>
      dictGet kvs "errcode" = none ∨ dictGet kvs "errcode" = some (Json.str "0")
  | _ => True

/-- On invariant-satisfying payloads the formatter's `errcode ≠ "0"`
error branch is never taken: replacing it with junk does not change the
output. -/
lemma formatBody_eq_of_inv (d : Json) (h : successInvariant d) :
    formatBody d = formatBodyNoErr d := by
  cases d with
  | obj kvs =>
      rcases h with h0 | h0
      · simp [formatBody, formatBodyNoErr, h0]
      · simp [formatBody, formatBodyNoErr, h0, jsonEqStr]
  | null => rfl
  | bool b => rfl
  | num n => rfl
  | str s => rfl
  | arr xs => rfl

/-- **C8.** Every Success outcome the classifier produces satisfies the
invariant — its payload lacks `errcode` or has `errcode = "0"` — and
consequently the formatter's error-rendering branch is unreachable on
classifier-produced outcomes: the formatter body equals the variant with
that branch cut out. -/
theorem classifier_success_invariant (net : NetOutcome) (d : Json)
    (h : call_5118_api net = Except.ok (ApiResult.success d)) :
    successInvariant d ∧ formatBody d = formatBodyNoErr d := by
  have hinv : successInvariant d := by
    cases net with
    | timeout => simp [call_5118_api] at h
    | connError => simp [call_5118_api] at h
    | reqException m => simp [call_5118_api] at h
    | resp status text parsed =>
      simp only [call_5118_api] at h
      split at h
      · cases parsed with
        | none =>
            simp only [Except.ok.injEq, ApiResult.success.injEq] at h
            subst h
            simp [successInvariant, dictGet]
        | some j =>
            cases j with
            | obj kvs =>
                simp only [classify200] at h
                cases hd : dictGet kvs "errcode" with
                | none =>
                    rw [hd] at h
                    simp only [Except.ok.injEq, ApiResult.success.injEq] at h
                    subst h
                    exact Or.inl hd
                | some v =>
                    rw [hd] at h
                    cases hv : jsonEqStr v "0" with
                    | true =>
                        simp only [hv, if_true, Except.ok.injEq,
                          ApiResult.success.injEq] at h
                        subst h
                        have hv0 : v = Json.str "0" := (jsonEqStr_true_iff v "0").mp hv
                        rw [hv0] at hd
                        exact Or.inr hd
                    | false =>
                        simp [hv] at h
            | arr xs =>
                simp only [classify200] at h
                split at h
                · simp at h
                · simp only [Except.ok.injEq, ApiResult.success.injEq] at h
                  subst h
                  trivial
            | str s =>
                simp only [classify200] at h
                split at h
                · simp at h
                · simp only [Except.ok.injEq, ApiResult.success.injEq] at h
                  subst h
                  trivial
            | null => simp [classify200] at h
            | bool b => simp [classify200] at h
            | num n => simp [classify200] at h
      · split at h
        · simp at h
        · split at h
          · simp at h
          · split at h
            · simp at h
            · simp at h
  exact ⟨hinv, formatBody_eq_of_inv d hinv⟩

/-- Witness for C8 at the standard success envelope
`{"errcode":"0","data":"x"}`. -/
theorem classifier_success_invariant_witness :
    successInvariant (Json.obj [("errcode", Json.str "0"), ("data", Json.str "x")])
      ∧ formatBody (Json.obj [("errcode", Json.str "0"), ("data", Json.str "x")])
          = formatBodyNoErr
              (Json.obj [("errcode", Json.str "0"), ("data", Json.str "x")]) :=
  classifier_success_invariant
    (NetOutcome.resp 200 ""
      (some (Json.obj [("errcode", Json.str "0"), ("data", Json.str "x")])))
    (Json.obj [("errcode", Json.str "0"), ("data", Json.str "x")]) rfl
